import Mathlib

set_option maxRecDepth 100000
set_option linter.unnecessarySimpa false

/-!
Verification development for the Dart VM root-object registry excerpt
(`runtime/vm/object_store.h`) and the generated experimental-feature table
(`runtime/vm/experimental_features.cc`).

The object store is embedded as its declared slot list: each entry of
`OBJECT_STORE_FIELD_LIST` (resp. `ISOLATE_OBJECT_STORE_FIELD_LIST`) becomes
one `Slot` carrying its access kind (the macro parameter it is declared
under), its reference type, and its name, in declaration order.  Slot `i`
of the list is the `i`-th contiguous field of the C++ object, so the
pointer ranges `from()` / `to()` / `to_snapshot(kind)` become indices into
the list.  Store contents are modelled as functions from slot index to an
optional value (`none` is the null reference).
-/

namespace DartVM

/-- Access kind of a slot: the macro parameter it is declared under in
`OBJECT_STORE_FIELD_LIST` / `ISOLATE_OBJECT_STORE_FIELD_LIST`.
`r` = getter only, `rw` = getter and setter, `arw` = atomic getter and
setter, `cr`/`fr`/`ir` = lazy getter owned by the Core/Async/Isolate
lazy-init routine. -/
inductive SlotKind
  | r | rw | arw | cr | fr | ir
deriving DecidableEq, Repr

/-- Reference type of a slot (the first macro argument). -/
inductive SlotTy
  | cls | typ | fn | typeArgs | fld | arr | lib | growArr | inst | smi
  | stackMaps | objPool | code | obj | unhandledExc | stackTr
deriving DecidableEq, Repr

/-- One declared root slot. -/
structure Slot where
  kind : SlotKind
  ty : SlotTy
  name : String
deriving DecidableEq, Repr

/-- Backing storage chosen for each access kind (from the
`DECLARE_*_OBJECT_STORE_FIELD` expansion): plain `type##Ptr` for `R_`/`RW`
slots, `std::atomic<type##Ptr>` for `ARW` slots, `AcqRelAtomic<type##Ptr>`
for the lazy slots. -/
inductive StorageKind
  | plain | stdAtomic | acqRelAtomic
deriving DecidableEq, Repr

/-- Storage of each slot kind, following the field-declaration macros at
the bottom of class `ObjectStore`. -/
def storageOfKind : SlotKind → StorageKind
  | SlotKind.r => StorageKind.plain
  | SlotKind.rw => StorageKind.plain
  | SlotKind.arw => StorageKind.stdAtomic
  | SlotKind.cr => StorageKind.acqRelAtomic
  | SlotKind.fr => StorageKind.acqRelAtomic
  | SlotKind.ir => StorageKind.acqRelAtomic

/-- C++ memory orders that appear in the atomic accessors. -/
inductive MemOrder
  | relaxed | acquire | release | acqRel | seqCst
deriving DecidableEq, Repr

/-- The default template argument of `DECLARE_ATOMIC_GETTER_AND_SETTER`:
both the atomic getter and the atomic setter default to
`std::memory_order_relaxed`. -/
def atomicAccessDefaultOrder : MemOrder := MemOrder.relaxed

/-- Slots 0-29 of `OBJECT_STORE_FIELD_LIST` (chunked to keep elaboration linear). -/
def osf0 : List Slot := [
  ⟨SlotKind.cr, SlotTy.cls, "list_class"⟩,
  ⟨SlotKind.cr, SlotTy.typ, "non_nullable_list_rare_type"⟩,
  ⟨SlotKind.cr, SlotTy.typ, "non_nullable_map_rare_type"⟩,
  ⟨SlotKind.cr, SlotTy.fn, "_object_equals_function"⟩,
  ⟨SlotKind.cr, SlotTy.fn, "_object_hash_code_function"⟩,
  ⟨SlotKind.cr, SlotTy.fn, "_object_to_string_function"⟩,
  ⟨SlotKind.fr, SlotTy.typ, "non_nullable_future_rare_type"⟩,
  ⟨SlotKind.fr, SlotTy.typ, "non_nullable_future_never_type"⟩,
  ⟨SlotKind.fr, SlotTy.typ, "nullable_future_null_type"⟩,
  ⟨SlotKind.ir, SlotTy.fn, "lookup_port_handler"⟩,
  ⟨SlotKind.ir, SlotTy.fn, "lookup_open_ports"⟩,
  ⟨SlotKind.ir, SlotTy.fn, "handle_message_function"⟩,
  ⟨SlotKind.rw, SlotTy.cls, "object_class"⟩,
  ⟨SlotKind.rw, SlotTy.typ, "object_type"⟩,
  ⟨SlotKind.rw, SlotTy.typ, "legacy_object_type"⟩,
  ⟨SlotKind.rw, SlotTy.typ, "non_nullable_object_type"⟩,
  ⟨SlotKind.rw, SlotTy.typ, "nullable_object_type"⟩,
  ⟨SlotKind.rw, SlotTy.cls, "null_class"⟩,
  ⟨SlotKind.rw, SlotTy.typ, "null_type"⟩,
  ⟨SlotKind.rw, SlotTy.cls, "never_class"⟩,
  ⟨SlotKind.rw, SlotTy.typ, "never_type"⟩,
  ⟨SlotKind.rw, SlotTy.typ, "function_type"⟩,
  ⟨SlotKind.rw, SlotTy.typ, "legacy_function_type"⟩,
  ⟨SlotKind.rw, SlotTy.typ, "non_nullable_function_type"⟩,
  ⟨SlotKind.rw, SlotTy.typ, "type_type"⟩,
  ⟨SlotKind.rw, SlotTy.cls, "closure_class"⟩,
  ⟨SlotKind.rw, SlotTy.typ, "number_type"⟩,
  ⟨SlotKind.rw, SlotTy.typ, "legacy_number_type"⟩,
  ⟨SlotKind.rw, SlotTy.typ, "non_nullable_number_type"⟩,
  ⟨SlotKind.rw, SlotTy.typ, "int_type"⟩
]

/-- Slots 30-59 of `OBJECT_STORE_FIELD_LIST` (chunked to keep elaboration linear). -/
def osf1 : List Slot := [
  ⟨SlotKind.rw, SlotTy.typ, "legacy_int_type"⟩,
  ⟨SlotKind.rw, SlotTy.typ, "non_nullable_int_type"⟩,
  ⟨SlotKind.rw, SlotTy.typ, "nullable_int_type"⟩,
  ⟨SlotKind.rw, SlotTy.cls, "integer_implementation_class"⟩,
  ⟨SlotKind.rw, SlotTy.typ, "int64_type"⟩,
  ⟨SlotKind.rw, SlotTy.cls, "smi_class"⟩,
  ⟨SlotKind.rw, SlotTy.typ, "smi_type"⟩,
  ⟨SlotKind.rw, SlotTy.typ, "legacy_smi_type"⟩,
  ⟨SlotKind.rw, SlotTy.typ, "non_nullable_smi_type"⟩,
  ⟨SlotKind.rw, SlotTy.cls, "mint_class"⟩,
  ⟨SlotKind.rw, SlotTy.typ, "mint_type"⟩,
  ⟨SlotKind.rw, SlotTy.typ, "legacy_mint_type"⟩,
  ⟨SlotKind.rw, SlotTy.typ, "non_nullable_mint_type"⟩,
  ⟨SlotKind.rw, SlotTy.cls, "double_class"⟩,
  ⟨SlotKind.rw, SlotTy.typ, "double_type"⟩,
  ⟨SlotKind.rw, SlotTy.typ, "legacy_double_type"⟩,
  ⟨SlotKind.rw, SlotTy.typ, "non_nullable_double_type"⟩,
  ⟨SlotKind.rw, SlotTy.typ, "nullable_double_type"⟩,
  ⟨SlotKind.rw, SlotTy.typ, "float32x4_type"⟩,
  ⟨SlotKind.rw, SlotTy.typ, "int32x4_type"⟩,
  ⟨SlotKind.rw, SlotTy.typ, "float64x2_type"⟩,
  ⟨SlotKind.rw, SlotTy.typ, "string_type"⟩,
  ⟨SlotKind.rw, SlotTy.typ, "legacy_string_type"⟩,
  ⟨SlotKind.rw, SlotTy.typ, "non_nullable_string_type"⟩,
  ⟨SlotKind.rw, SlotTy.typeArgs, "type_argument_int"⟩,
  ⟨SlotKind.rw, SlotTy.typeArgs, "type_argument_legacy_int"⟩,
  ⟨SlotKind.rw, SlotTy.typeArgs, "type_argument_non_nullable_int"⟩,
  ⟨SlotKind.rw, SlotTy.typeArgs, "type_argument_double"⟩,
  ⟨SlotKind.rw, SlotTy.typeArgs, "type_argument_legacy_double"⟩,
  ⟨SlotKind.rw, SlotTy.typeArgs, "type_argument_non_nullable_double"⟩
]

/-- Slots 60-89 of `OBJECT_STORE_FIELD_LIST` (chunked to keep elaboration linear). -/
def osf2 : List Slot := [
  ⟨SlotKind.rw, SlotTy.typeArgs, "type_argument_string"⟩,
  ⟨SlotKind.rw, SlotTy.typeArgs, "type_argument_legacy_string"⟩,
  ⟨SlotKind.rw, SlotTy.typeArgs, "type_argument_non_nullable_string"⟩,
  ⟨SlotKind.rw, SlotTy.typeArgs, "type_argument_string_dynamic"⟩,
  ⟨SlotKind.rw, SlotTy.typeArgs, "type_argument_legacy_string_dynamic"⟩,
  ⟨SlotKind.rw, SlotTy.typeArgs, "type_argument_non_nullable_string_dynamic"⟩,
  ⟨SlotKind.rw, SlotTy.typeArgs, "type_argument_string_string"⟩,
  ⟨SlotKind.rw, SlotTy.typeArgs, "type_argument_legacy_string_legacy_string"⟩,
  ⟨SlotKind.rw, SlotTy.typeArgs, "type_argument_non_nullable_string_non_nullable_string"⟩,
  ⟨SlotKind.rw, SlotTy.cls, "compiletime_error_class"⟩,
  ⟨SlotKind.rw, SlotTy.cls, "pragma_class"⟩,
  ⟨SlotKind.rw, SlotTy.fld, "pragma_name"⟩,
  ⟨SlotKind.rw, SlotTy.fld, "pragma_options"⟩,
  ⟨SlotKind.rw, SlotTy.cls, "future_class"⟩,
  ⟨SlotKind.rw, SlotTy.cls, "completer_class"⟩,
  ⟨SlotKind.rw, SlotTy.cls, "symbol_class"⟩,
  ⟨SlotKind.rw, SlotTy.cls, "one_byte_string_class"⟩,
  ⟨SlotKind.rw, SlotTy.cls, "two_byte_string_class"⟩,
  ⟨SlotKind.rw, SlotTy.cls, "external_one_byte_string_class"⟩,
  ⟨SlotKind.rw, SlotTy.cls, "external_two_byte_string_class"⟩,
  ⟨SlotKind.rw, SlotTy.typ, "bool_type"⟩,
  ⟨SlotKind.rw, SlotTy.typ, "legacy_bool_type"⟩,
  ⟨SlotKind.rw, SlotTy.typ, "non_nullable_bool_type"⟩,
  ⟨SlotKind.rw, SlotTy.cls, "bool_class"⟩,
  ⟨SlotKind.rw, SlotTy.cls, "array_class"⟩,
  ⟨SlotKind.rw, SlotTy.typ, "array_type"⟩,
  ⟨SlotKind.rw, SlotTy.typ, "legacy_array_type"⟩,
  ⟨SlotKind.rw, SlotTy.typ, "non_nullable_array_type"⟩,
  ⟨SlotKind.rw, SlotTy.cls, "immutable_array_class"⟩,
  ⟨SlotKind.rw, SlotTy.cls, "growable_object_array_class"⟩
]

/-- Slots 90-119 of `OBJECT_STORE_FIELD_LIST` (chunked to keep elaboration linear). -/
def osf3 : List Slot := [
  ⟨SlotKind.rw, SlotTy.cls, "linked_hash_map_class"⟩,
  ⟨SlotKind.rw, SlotTy.cls, "linked_hash_set_class"⟩,
  ⟨SlotKind.rw, SlotTy.cls, "float32x4_class"⟩,
  ⟨SlotKind.rw, SlotTy.cls, "int32x4_class"⟩,
  ⟨SlotKind.rw, SlotTy.cls, "float64x2_class"⟩,
  ⟨SlotKind.rw, SlotTy.cls, "error_class"⟩,
  ⟨SlotKind.rw, SlotTy.cls, "weak_property_class"⟩,
  ⟨SlotKind.rw, SlotTy.arr, "symbol_table"⟩,
  ⟨SlotKind.rw, SlotTy.arr, "canonical_types"⟩,
  ⟨SlotKind.rw, SlotTy.arr, "canonical_function_types"⟩,
  ⟨SlotKind.rw, SlotTy.arr, "canonical_type_parameters"⟩,
  ⟨SlotKind.rw, SlotTy.arr, "canonical_type_arguments"⟩,
  ⟨SlotKind.rw, SlotTy.lib, "async_library"⟩,
  ⟨SlotKind.rw, SlotTy.lib, "builtin_library"⟩,
  ⟨SlotKind.rw, SlotTy.lib, "core_library"⟩,
  ⟨SlotKind.rw, SlotTy.lib, "collection_library"⟩,
  ⟨SlotKind.rw, SlotTy.lib, "convert_library"⟩,
  ⟨SlotKind.rw, SlotTy.lib, "developer_library"⟩,
  ⟨SlotKind.rw, SlotTy.lib, "ffi_library"⟩,
  ⟨SlotKind.rw, SlotTy.lib, "_internal_library"⟩,
  ⟨SlotKind.rw, SlotTy.lib, "isolate_library"⟩,
  ⟨SlotKind.rw, SlotTy.lib, "math_library"⟩,
  ⟨SlotKind.rw, SlotTy.lib, "mirrors_library"⟩,
  ⟨SlotKind.rw, SlotTy.lib, "native_wrappers_library"⟩,
  ⟨SlotKind.rw, SlotTy.lib, "profiler_library"⟩,
  ⟨SlotKind.rw, SlotTy.lib, "root_library"⟩,
  ⟨SlotKind.rw, SlotTy.lib, "typed_data_library"⟩,
  ⟨SlotKind.rw, SlotTy.lib, "_vmservice_library"⟩,
  ⟨SlotKind.rw, SlotTy.growArr, "libraries"⟩,
  ⟨SlotKind.rw, SlotTy.arr, "libraries_map"⟩
]

/-- Slots 120-149 of `OBJECT_STORE_FIELD_LIST` (chunked to keep elaboration linear). -/
def osf4 : List Slot := [
  ⟨SlotKind.rw, SlotTy.arr, "loading_units"⟩,
  ⟨SlotKind.rw, SlotTy.growArr, "closure_functions"⟩,
  ⟨SlotKind.rw, SlotTy.growArr, "pending_classes"⟩,
  ⟨SlotKind.rw, SlotTy.inst, "stack_overflow"⟩,
  ⟨SlotKind.rw, SlotTy.inst, "out_of_memory"⟩,
  ⟨SlotKind.rw, SlotTy.fn, "growable_list_factory"⟩,
  ⟨SlotKind.rw, SlotTy.fn, "simple_instance_of_function"⟩,
  ⟨SlotKind.rw, SlotTy.fn, "simple_instance_of_true_function"⟩,
  ⟨SlotKind.rw, SlotTy.fn, "simple_instance_of_false_function"⟩,
  ⟨SlotKind.rw, SlotTy.fn, "async_star_move_next_helper"⟩,
  ⟨SlotKind.rw, SlotTy.fn, "complete_on_async_return"⟩,
  ⟨SlotKind.rw, SlotTy.fn, "complete_on_async_error"⟩,
  ⟨SlotKind.rw, SlotTy.cls, "async_star_stream_controller"⟩,
  ⟨SlotKind.arw, SlotTy.smi, "future_timeout_future_index"⟩,
  ⟨SlotKind.arw, SlotTy.smi, "future_wait_future_index"⟩,
  ⟨SlotKind.rw, SlotTy.stackMaps, "canonicalized_stack_map_entries"⟩,
  ⟨SlotKind.rw, SlotTy.objPool, "global_object_pool"⟩,
  ⟨SlotKind.rw, SlotTy.arr, "unique_dynamic_targets"⟩,
  ⟨SlotKind.rw, SlotTy.growArr, "megamorphic_cache_table"⟩,
  ⟨SlotKind.rw, SlotTy.code, "build_generic_method_extractor_code"⟩,
  ⟨SlotKind.rw, SlotTy.code, "build_nongeneric_method_extractor_code"⟩,
  ⟨SlotKind.rw, SlotTy.code, "dispatch_table_null_error_stub"⟩,
  ⟨SlotKind.rw, SlotTy.code, "late_initialization_error_stub_with_fpu_regs_stub"⟩,
  ⟨SlotKind.rw, SlotTy.code, "late_initialization_error_stub_without_fpu_regs_stub"⟩,
  ⟨SlotKind.rw, SlotTy.code, "null_error_stub_with_fpu_regs_stub"⟩,
  ⟨SlotKind.rw, SlotTy.code, "null_error_stub_without_fpu_regs_stub"⟩,
  ⟨SlotKind.rw, SlotTy.code, "null_arg_error_stub_with_fpu_regs_stub"⟩,
  ⟨SlotKind.rw, SlotTy.code, "null_arg_error_stub_without_fpu_regs_stub"⟩,
  ⟨SlotKind.rw, SlotTy.code, "null_cast_error_stub_with_fpu_regs_stub"⟩,
  ⟨SlotKind.rw, SlotTy.code, "null_cast_error_stub_without_fpu_regs_stub"⟩
]

/-- Slots 150-179 of `OBJECT_STORE_FIELD_LIST` (chunked to keep elaboration linear). -/
def osf5 : List Slot := [
  ⟨SlotKind.rw, SlotTy.code, "range_error_stub_with_fpu_regs_stub"⟩,
  ⟨SlotKind.rw, SlotTy.code, "range_error_stub_without_fpu_regs_stub"⟩,
  ⟨SlotKind.rw, SlotTy.code, "allocate_mint_with_fpu_regs_stub"⟩,
  ⟨SlotKind.rw, SlotTy.code, "allocate_mint_without_fpu_regs_stub"⟩,
  ⟨SlotKind.rw, SlotTy.code, "stack_overflow_stub_with_fpu_regs_stub"⟩,
  ⟨SlotKind.rw, SlotTy.code, "stack_overflow_stub_without_fpu_regs_stub"⟩,
  ⟨SlotKind.rw, SlotTy.code, "allocate_array_stub"⟩,
  ⟨SlotKind.rw, SlotTy.code, "allocate_mint_stub"⟩,
  ⟨SlotKind.rw, SlotTy.code, "allocate_double_stub"⟩,
  ⟨SlotKind.rw, SlotTy.code, "allocate_float32x4_stub"⟩,
  ⟨SlotKind.rw, SlotTy.code, "allocate_float64x2_stub"⟩,
  ⟨SlotKind.rw, SlotTy.code, "allocate_int32x4_stub"⟩,
  ⟨SlotKind.rw, SlotTy.code, "allocate_int8_array_stub"⟩,
  ⟨SlotKind.rw, SlotTy.code, "allocate_uint8_array_stub"⟩,
  ⟨SlotKind.rw, SlotTy.code, "allocate_uint8_clamped_array_stub"⟩,
  ⟨SlotKind.rw, SlotTy.code, "allocate_int16_array_stub"⟩,
  ⟨SlotKind.rw, SlotTy.code, "allocate_uint16_array_stub"⟩,
  ⟨SlotKind.rw, SlotTy.code, "allocate_int32_array_stub"⟩,
  ⟨SlotKind.rw, SlotTy.code, "allocate_uint32_array_stub"⟩,
  ⟨SlotKind.rw, SlotTy.code, "allocate_int64_array_stub"⟩,
  ⟨SlotKind.rw, SlotTy.code, "allocate_uint64_array_stub"⟩,
  ⟨SlotKind.rw, SlotTy.code, "allocate_float32_array_stub"⟩,
  ⟨SlotKind.rw, SlotTy.code, "allocate_float64_array_stub"⟩,
  ⟨SlotKind.rw, SlotTy.code, "allocate_float32x4_array_stub"⟩,
  ⟨SlotKind.rw, SlotTy.code, "allocate_int32x4_array_stub"⟩,
  ⟨SlotKind.rw, SlotTy.code, "allocate_float64x2_array_stub"⟩,
  ⟨SlotKind.rw, SlotTy.code, "allocate_closure_stub"⟩,
  ⟨SlotKind.rw, SlotTy.code, "allocate_context_stub"⟩,
  ⟨SlotKind.rw, SlotTy.code, "allocate_object_stub"⟩,
  ⟨SlotKind.rw, SlotTy.code, "allocate_object_parametrized_stub"⟩
]

/-- Slots 180-206 of `OBJECT_STORE_FIELD_LIST` (chunked to keep elaboration linear). -/
def osf6 : List Slot := [
  ⟨SlotKind.rw, SlotTy.code, "allocate_unhandled_exception_stub"⟩,
  ⟨SlotKind.rw, SlotTy.code, "clone_context_stub"⟩,
  ⟨SlotKind.rw, SlotTy.code, "write_barrier_wrappers_stub"⟩,
  ⟨SlotKind.rw, SlotTy.code, "array_write_barrier_stub"⟩,
  ⟨SlotKind.rw, SlotTy.code, "throw_stub"⟩,
  ⟨SlotKind.rw, SlotTy.code, "re_throw_stub"⟩,
  ⟨SlotKind.rw, SlotTy.code, "assert_boolean_stub"⟩,
  ⟨SlotKind.rw, SlotTy.code, "instance_of_stub"⟩,
  ⟨SlotKind.rw, SlotTy.code, "init_static_field_stub"⟩,
  ⟨SlotKind.rw, SlotTy.code, "init_instance_field_stub"⟩,
  ⟨SlotKind.rw, SlotTy.code, "init_late_instance_field_stub"⟩,
  ⟨SlotKind.rw, SlotTy.code, "init_late_final_instance_field_stub"⟩,
  ⟨SlotKind.rw, SlotTy.code, "call_closure_no_such_method_stub"⟩,
  ⟨SlotKind.rw, SlotTy.code, "default_tts_stub"⟩,
  ⟨SlotKind.rw, SlotTy.code, "default_nullable_tts_stub"⟩,
  ⟨SlotKind.rw, SlotTy.code, "top_type_tts_stub"⟩,
  ⟨SlotKind.rw, SlotTy.code, "nullable_type_parameter_tts_stub"⟩,
  ⟨SlotKind.rw, SlotTy.code, "type_parameter_tts_stub"⟩,
  ⟨SlotKind.rw, SlotTy.code, "unreachable_tts_stub"⟩,
  ⟨SlotKind.rw, SlotTy.code, "slow_tts_stub"⟩,
  ⟨SlotKind.rw, SlotTy.arr, "dispatch_table_code_entries"⟩,
  ⟨SlotKind.rw, SlotTy.growArr, "instructions_tables"⟩,
  ⟨SlotKind.rw, SlotTy.arr, "obfuscation_map"⟩,
  ⟨SlotKind.rw, SlotTy.growArr, "ffi_callback_functions"⟩,
  ⟨SlotKind.rw, SlotTy.cls, "ffi_pointer_class"⟩,
  ⟨SlotKind.rw, SlotTy.cls, "ffi_native_type_class"⟩,
  ⟨SlotKind.rw, SlotTy.obj, "ffi_as_function_internal"⟩
]

/-- The slots of `OBJECT_STORE_FIELD_LIST`, in declaration order. -/
def objectStoreFields : List Slot :=
  osf0 ++ osf1 ++ osf2 ++ osf3 ++ osf4 ++ osf5 ++ osf6

/-- The slots of `ISOLATE_OBJECT_STORE_FIELD_LIST`, in declaration
order. -/
def isolateObjectStoreFields : List Slot := [
  ⟨SlotKind.rw, SlotTy.unhandledExc, "preallocated_unhandled_exception"⟩,
  ⟨SlotKind.rw, SlotTy.stackTr, "preallocated_stack_trace"⟩,
  ⟨SlotKind.rw, SlotTy.arr, "dart_args_1"⟩,
  ⟨SlotKind.rw, SlotTy.arr, "dart_args_2"⟩,
  ⟨SlotKind.r, SlotTy.growArr, "resume_capabilities"⟩,
  ⟨SlotKind.r, SlotTy.growArr, "exit_listeners"⟩,
  ⟨SlotKind.r, SlotTy.growArr, "error_listeners"⟩
]

/-- Index of the named slot in a field list (position of the declared
field, i.e. its offset in pointer words from the first field). -/
def slotIndex (fields : List Slot) (n : String) : Nat :=
  fields.findIdx (fun s => s.name == n)

def numObjectStoreSlots : Nat := objectStoreFields.length

def numIsolateStoreSlots : Nat := isolateObjectStoreFields.length

/-- `ObjectStore::from()` returns `&list_class_`: the slot index of the
start of the contiguous range. -/
def fromIndex : Nat := slotIndex objectStoreFields "list_class"

/-- `ObjectStore::to()` returns `&ffi_as_function_internal_`: the slot
index of the last slot of the contiguous range. -/
def toIndex : Nat := slotIndex objectStoreFields "ffi_as_function_internal"

/-- `IsolateObjectStore::from()` returns
`&preallocated_unhandled_exception_`. -/
def isolateFromIndex : Nat :=
  slotIndex isolateObjectStoreFields "preallocated_unhandled_exception"

/-- `IsolateObjectStore::to()` returns `&error_listeners_`. -/
def isolateToIndex : Nat :=
  slotIndex isolateObjectStoreFields "error_listeners"

/-- `Snapshot::Kind` as consumed by `ObjectStore::to_snapshot`. -/
inductive SnapshotKind
  | kFull | kFullCore | kFullJIT | kFullAOT | kMessage | kNone | kInvalid
deriving DecidableEq, Repr

/-- `ObjectStore::to_snapshot(kind)`: the slot index of the last slot
included for the given kind; `none` models the `UNREACHABLE()` fall-through
for `kMessage`/`kNone`/`kInvalid`. -/
def toSnapshotIndex : SnapshotKind → Option Nat
  | SnapshotKind.kFull => some (slotIndex objectStoreFields "global_object_pool")
  | SnapshotKind.kFullCore => some (slotIndex objectStoreFields "global_object_pool")
  | SnapshotKind.kFullJIT => some (slotIndex objectStoreFields "slow_tts_stub")
  | SnapshotKind.kFullAOT => some (slotIndex objectStoreFields "slow_tts_stub")
  | SnapshotKind.kMessage => none
  | SnapshotKind.kNone => none
  | SnapshotKind.kInvalid => none

/-- The half-open slot sub-range `[from, to)` for a snapshot kind: the
serializer and deserializer walk the inclusive pointer range
`from() .. to_snapshot(kind)`, which in slot indices is
`[fromIndex, toSnapshotIndex kind + 1)`. -/
def snapshotRange (k : SnapshotKind) : Option (Nat × Nat) :=
  (toSnapshotIndex k).map (fun t => (fromIndex, t + 1))

/-- The slot indices visited by a walk of the half-open range
`[lo, hi)` in slot order, one visit per slot.

Modelled from the spec: the bodies of `ObjectStore::VisitObjectPointers`
and `IsolateObjectStore::VisitObjectPointers` live in `object_store.cc`,
which is outside the excerpt; per the spec they walk the contiguous slot
range (or a requested sub-range) in slot order and call the visitor once
per slot. -/
def visitTrace (lo hi : Nat) : List Nat := List.range' lo (hi - lo)

/-- Number of slots a `visitTrace` walk of the kind's snapshot range
visits. -/
def snapshotVisitCount (k : SnapshotKind) : Option Nat :=
  (snapshotRange k).map (fun p => (visitTrace p.1 p.2).length)

/-- Number of slots included by `snapshotRange` for the kind. -/
def snapshotSlotCount (k : SnapshotKind) : Option Nat :=
  (snapshotRange k).map (fun p => p.2 - p.1)

/-- The slot indices the persistence subsystem reads/writes for a kind.

Modelled from the spec: the `Serializer`/`Deserializer` friends live
outside the excerpt; per the spec they read/write exactly the
`snapshotRange(kind)` sub-range in the same slot order as
`visitPointers`. -/
def serializedSlots (k : SnapshotKind) : List Nat :=
  match snapshotRange k with
  | some (lo, hi) => visitTrace lo hi
  | none => []

/-- Byte offset of slot `i` in a layout whose slots are `w`-byte pointer
fields laid out consecutively from the first declared field. -/
def slotOffset (w i : Nat) : Nat := w * i

/-- Reference type stored at slot index `i` of the group store. -/
def slotTyAt (i : Nat) : Option SlotTy := (objectStoreFields[i]?).map Slot.ty

/-- Does slot `i` of the group store hold generated code (a `Code`-typed
stub)? -/
def isCodeSlot (i : Nat) : Bool := slotTyAt i == some SlotTy.code

/-- Contents of a store: slot index ↦ optional reference value (`none` is
the null reference). -/
abbrev StoreState : Type := Nat → Option Nat

/-- Write value `v` into slot `i` of a store. -/
def setSlot (s : StoreState) (i : Nat) (v : Nat) : StoreState :=
  fun j => if j = i then some v else s j

/-- The three lazy-initializer groups: `LazyInitCoreMembers`,
`LazyInitAsyncMembers`, `LazyInitIsolateMembers`. -/
inductive LazyGroup
  | core | async | isolate
deriving DecidableEq, Repr

/-- Owning lazy group of a slot kind: `CR` slots belong to the Core
group, `FR` slots to the Async group, `IR` slots to the Isolate group. -/
def groupOfKind : SlotKind → Option LazyGroup
  | SlotKind.cr => some LazyGroup.core
  | SlotKind.fr => some LazyGroup.async
  | SlotKind.ir => some LazyGroup.isolate
  | _ => none

/-- Owning lazy group of group-store slot index `i`, when `i` is a lazy
slot. -/
def slotGroup (i : Nat) : Option LazyGroup :=
  (objectStoreFields[i]?).bind (fun s => groupOfKind s.kind)

/-- The (non-null) value a lazy initializer installs in slot `j`; the
concrete value is irrelevant, only that it is non-null. -/
def lazyInitValue (g : LazyGroup) (j : Nat) : Nat :=
  match g with
  | LazyGroup.core => j + 1
  | LazyGroup.async => j + 1
  | LazyGroup.isolate => j + 1

/-- Modelled from the spec: the bodies of `LazyInitCoreMembers`,
`LazyInitAsyncMembers` and `LazyInitIsolateMembers` live in
`object_store.cc`, outside the excerpt; per the spec each initializer
populates every slot of its group in one pass. -/
def runLazyInit (g : LazyGroup) (s : StoreState) : StoreState :=
  fun j => if slotGroup j = some g then some (lazyInitValue g j) else s j

/-- `DECLARE_LAZY_INIT_GETTER`: `if (name_.load() == Type::null()) init();
return name_.load();` — read lazy slot `i`, running the owning
initializer first when the cached value is null.  Returns the loaded
value together with the store state after the call.  (The macro is only
instantiated for lazy slots; a non-lazy index is a plain read.) -/
def lazyGet (i : Nat) (s : StoreState) : Option Nat × StoreState :=
  match slotGroup i with
  | some g =>
      if s i = none then
        ((runLazyInit g s) i, runLazyInit g s)
      else (s i, s)
  | none => (s i, s)

/-- `ObjectStore::BootstrapLibraryId`, generated by `MAKE_ID` over
`FOR_EACH_BOOTSTRAP_LIBRARY`, in declaration order. -/
inductive BootstrapLibraryId
  | kCore | kAsync | kCollection | kConvert | kDeveloper | kFfi
  | kInternal | kIsolate | kMath | kMirrors | kTypedData | kVMService
deriving DecidableEq, Repr, Fintype

/-- Underlying enumeration value (declaration position) of each
identifier. -/
def BootstrapLibraryId.toNat : BootstrapLibraryId → Nat
  | BootstrapLibraryId.kCore => 0
  | BootstrapLibraryId.kAsync => 1
  | BootstrapLibraryId.kCollection => 2
  | BootstrapLibraryId.kConvert => 3
  | BootstrapLibraryId.kDeveloper => 4
  | BootstrapLibraryId.kFfi => 5
  | BootstrapLibraryId.kInternal => 6
  | BootstrapLibraryId.kIsolate => 7
  | BootstrapLibraryId.kMath => 8
  | BootstrapLibraryId.kMirrors => 9
  | BootstrapLibraryId.kTypedData => 10
  | BootstrapLibraryId.kVMService => 11

/-- The `(CamelName, name)` pairs of `FOR_EACH_BOOTSTRAP_LIBRARY`, in
declaration (compile/load) order. -/
def bootstrapLibraryList : List (String × String) := [
  ("Core", "core"), ("Async", "async"), ("Collection", "collection"),
  ("Convert", "convert"), ("Developer", "developer"), ("Ffi", "ffi"),
  ("Internal", "_internal"), ("Isolate", "isolate"), ("Math", "math"),
  ("Mirrors", "mirrors"), ("TypedData", "typed_data"),
  ("VMService", "_vmservice")
]

/-- The identifiers in declaration order (the dense enumeration). -/
def bootstrapIds : List BootstrapLibraryId := [
  BootstrapLibraryId.kCore, BootstrapLibraryId.kAsync,
  BootstrapLibraryId.kCollection, BootstrapLibraryId.kConvert,
  BootstrapLibraryId.kDeveloper, BootstrapLibraryId.kFfi,
  BootstrapLibraryId.kInternal, BootstrapLibraryId.kIsolate,
  BootstrapLibraryId.kMath, BootstrapLibraryId.kMirrors,
  BootstrapLibraryId.kTypedData, BootstrapLibraryId.kVMService
]

/-- Decode a raw underlying value: `some` for the twelve declared
enumeration values, `none` for everything else. -/
def BootstrapLibraryId.ofNat? (n : Nat) : Option BootstrapLibraryId :=
  bootstrapIds[n]?

/-- The `name##_library_` field the `MAKE_CASE` arm for each identifier
reads (in `bootstrap_library`) and writes (in `set_bootstrap_library`). -/
def bootstrapLibrarySlotName : BootstrapLibraryId → String
  | BootstrapLibraryId.kCore => "core_library"
  | BootstrapLibraryId.kAsync => "async_library"
  | BootstrapLibraryId.kCollection => "collection_library"
  | BootstrapLibraryId.kConvert => "convert_library"
  | BootstrapLibraryId.kDeveloper => "developer_library"
  | BootstrapLibraryId.kFfi => "ffi_library"
  | BootstrapLibraryId.kInternal => "_internal_library"
  | BootstrapLibraryId.kIsolate => "isolate_library"
  | BootstrapLibraryId.kMath => "math_library"
  | BootstrapLibraryId.kMirrors => "mirrors_library"
  | BootstrapLibraryId.kTypedData => "typed_data_library"
  | BootstrapLibraryId.kVMService => "_vmservice_library"

/-- `DECLARE_GETTER` for a named slot: read the slot's field. -/
def getSlotByName (st : StoreState) (n : String) : Option Nat :=
  st (slotIndex objectStoreFields n)

/-- `DECLARE_GETTER_AND_SETTER` setter for a named slot: overwrite the
slot's field. -/
def setSlotByName (st : StoreState) (n : String) (v : Nat) : StoreState :=
  setSlot st (slotIndex objectStoreFields n) v

/-- The named getter `core_library()`. -/
def core_library (st : StoreState) : Option Nat := getSlotByName st "core_library"

/-- The named getter `async_library()`. -/
def async_library (st : StoreState) : Option Nat := getSlotByName st "async_library"

/-- The named getter `collection_library()`. -/
def collection_library (st : StoreState) : Option Nat := getSlotByName st "collection_library"

/-- The named getter `convert_library()`. -/
def convert_library (st : StoreState) : Option Nat := getSlotByName st "convert_library"

/-- The named getter `developer_library()`. -/
def developer_library (st : StoreState) : Option Nat := getSlotByName st "developer_library"

/-- The named getter `ffi_library()`. -/
def ffi_library (st : StoreState) : Option Nat := getSlotByName st "ffi_library"

/-- The named getter `_internal_library()`. -/
def internal_library (st : StoreState) : Option Nat := getSlotByName st "_internal_library"

/-- The named getter `isolate_library()`. -/
def isolate_library (st : StoreState) : Option Nat := getSlotByName st "isolate_library"

/-- The named getter `math_library()`. -/
def math_library (st : StoreState) : Option Nat := getSlotByName st "math_library"

/-- The named getter `mirrors_library()`. -/
def mirrors_library (st : StoreState) : Option Nat := getSlotByName st "mirrors_library"

/-- The named getter `typed_data_library()`. -/
def typed_data_library (st : StoreState) : Option Nat := getSlotByName st "typed_data_library"

/-- The named getter `_vmservice_library()`. -/
def vmservice_library (st : StoreState) : Option Nat := getSlotByName st "_vmservice_library"

/-- The named setter `set_core_library(value)`. -/
def set_core_library (st : StoreState) (v : Nat) : StoreState := setSlotByName st "core_library" v

/-- The named setter `set_async_library(value)`. -/
def set_async_library (st : StoreState) (v : Nat) : StoreState := setSlotByName st "async_library" v

/-- The named setter `set_collection_library(value)`. -/
def set_collection_library (st : StoreState) (v : Nat) : StoreState := setSlotByName st "collection_library" v

/-- The named setter `set_convert_library(value)`. -/
def set_convert_library (st : StoreState) (v : Nat) : StoreState := setSlotByName st "convert_library" v

/-- The named setter `set_developer_library(value)`. -/
def set_developer_library (st : StoreState) (v : Nat) : StoreState := setSlotByName st "developer_library" v

/-- The named setter `set_ffi_library(value)`. -/
def set_ffi_library (st : StoreState) (v : Nat) : StoreState := setSlotByName st "ffi_library" v

/-- The named setter `set__internal_library(value)`. -/
def set_internal_library (st : StoreState) (v : Nat) : StoreState := setSlotByName st "_internal_library" v

/-- The named setter `set_isolate_library(value)`. -/
def set_isolate_library (st : StoreState) (v : Nat) : StoreState := setSlotByName st "isolate_library" v

/-- The named setter `set_math_library(value)`. -/
def set_math_library (st : StoreState) (v : Nat) : StoreState := setSlotByName st "math_library" v

/-- The named setter `set_mirrors_library(value)`. -/
def set_mirrors_library (st : StoreState) (v : Nat) : StoreState := setSlotByName st "mirrors_library" v

/-- The named setter `set_typed_data_library(value)`. -/
def set_typed_data_library (st : StoreState) (v : Nat) : StoreState := setSlotByName st "typed_data_library" v

/-- The named setter `set__vmservice_library(value)`. -/
def set_vmservice_library (st : StoreState) (v : Nat) : StoreState := setSlotByName st "_vmservice_library" v

/-- `ObjectStore::bootstrap_library(index)`: the `MAKE_CASE` arm for
`index` returns the corresponding `name##_library_` field. -/
def bootstrap_library (st : StoreState) (index : BootstrapLibraryId) : Option Nat :=
  getSlotByName st (bootstrapLibrarySlotName index)

/-- `ObjectStore::set_bootstrap_library(index, value)`: the `MAKE_CASE`
arm for `index` overwrites the corresponding `name##_library_` field. -/
def set_bootstrap_library (st : StoreState) (index : BootstrapLibraryId) (v : Nat) : StoreState :=
  setSlotByName st (bootstrapLibrarySlotName index) v

/-- Result of a switch whose `default` arm is `UNREACHABLE()`: either a
value, or the non-recoverable fault. -/
inductive AccessResult (α : Type)
  | value (v : α)
  | fault
deriving DecidableEq, Repr

/-- `bootstrap_library` applied to a raw underlying enumeration value:
the twelve declared cases return the corresponding library field; any
other value reaches the `default: UNREACHABLE()` arm. -/
def bootstrap_library_raw (st : StoreState) (index : Nat) : AccessResult (Option Nat) :=
  match BootstrapLibraryId.ofNat? index with
  | some b => AccessResult.value (bootstrap_library st b)
  | none => AccessResult.fault

/-- `set_bootstrap_library` applied to a raw underlying enumeration
value: the twelve declared cases overwrite the corresponding library
field; any other value reaches the `default: UNREACHABLE()` arm. -/
def set_bootstrap_library_raw (st : StoreState) (index : Nat) (v : Nat) : AccessResult StoreState :=
  match BootstrapLibraryId.ofNat? index with
  | some b => AccessResult.value (set_bootstrap_library st b v)
  | none => AccessResult.fault

/-- `kFeatureValues` of `GetExperimentalFeatureDefault` in
`experimental_features.cc`. -/
def kFeatureValues : List Bool := [
  true, true, true, true, true, true, true, true,
  true, true, true, true, true, true, true
]

/-- `kFeatureNames` of `GetExperimentalFeatureName` in
`experimental_features.cc`. -/
def kFeatureNames : List String := [
  "nonfunction-type-aliases",
  "non-nullable",
  "extension-methods",
  "constant-update-2018",
  "control-flow-collections",
  "generic-metadata",
  "set-literals",
  "spread-collections",
  "triple-shift",
  "constructor-tearoffs",
  "enhanced-enums",
  "named-arguments-anywhere",
  "super-parameters",
  "inference-update-1",
  "unnamed-libraries"
]

/-- `GetExperimentalFeatureDefault(feature)`: `kFeatureValues[feature]`
guarded by `ASSERT(feature < ARRAY_SIZE(kFeatureValues))`; the failed
assertion out of bounds is the out-of-range fault, modelled as `none`. -/
def GetExperimentalFeatureDefault (feature : Nat) : Option Bool :=
  kFeatureValues[feature]?

/-- `GetExperimentalFeatureName(feature)`: `kFeatureNames[feature]`
guarded by `ASSERT(feature < ARRAY_SIZE(kFeatureNames))`; the failed
assertion out of bounds is the out-of-range fault, modelled as `none`. -/
def GetExperimentalFeatureName (feature : Nat) : Option String :=
  kFeatureNames[feature]?

/-- C1: for every declared sub-range of the Group Object Store and of
the Execution-Context Overlay Store, the slots are laid out contiguously
in declaration order (`from()` is the first declared field, `to()` the
last, and consecutive slots sit at consecutive pointer-word offsets);
`visitPointers` walks a range in strictly increasing slot order visiting
each slot of the range exactly once; and over each snapshot-kind
sub-range the number of slots visited equals the number of slots
included by `snapshotRange`. -/
theorem C1_contiguous_layout_and_visitation :
    fromIndex = 0
  ∧ toIndex + 1 = numObjectStoreSlots
  ∧ isolateFromIndex = 0
  ∧ isolateToIndex + 1 = numIsolateStoreSlots
  ∧ (∀ w i : Nat, slotOffset w (i + 1) = slotOffset w i + w)
  ∧ (∀ lo hi : Nat,
        (visitTrace lo hi).Nodup
      ∧ List.Pairwise (· < ·) (visitTrace lo hi)
      ∧ (∀ i : Nat, i ∈ visitTrace lo hi ↔ lo ≤ i ∧ i < lo + (hi - lo)))
  ∧ (visitTrace 0 numObjectStoreSlots).length = numObjectStoreSlots
  ∧ (visitTrace 0 numIsolateStoreSlots).length = numIsolateStoreSlots
  ∧ (∀ k : SnapshotKind, snapshotVisitCount k = snapshotSlotCount k) := by
  refine ⟨by decide, by decide, by decide, by decide, ?_, ?_, ?_, ?_, ?_⟩
  · intro w i
    simp [slotOffset, Nat.mul_succ]
  · intro lo hi
    refine ⟨List.nodup_range' _ _, ?_, ?_⟩
    · simpa using List.pairwise_lt_range' lo (hi - lo) 1 (by omega)
    · intro i
      simpa [visitTrace] using List.mem_range'_1
  · simp [visitTrace]
  · simp [visitTrace]
  · intro k
    cases k <;>
      simp [snapshotVisitCount, snapshotSlotCount, snapshotRange, visitTrace]

/-- C2: for every persisted-image kind (full heap, core-only,
just-in-time, ahead-of-time), `snapshotRange` returns a half-open
`[from, to)` sub-range of the contiguous slot layout whose boundaries
land on slot edges (`from` is the first declared slot, `to - 1` is a
declared slot), and serialization/deserialization covers exactly the
slots of that sub-range. -/
theorem C2_snapshot_range_covers_exactly
    (k : SnapshotKind)
    (hk : k = SnapshotKind.kFull ∨ k = SnapshotKind.kFullCore ∨
          k = SnapshotKind.kFullJIT ∨ k = SnapshotKind.kFullAOT) :
    ∃ hi : Nat,
      snapshotRange k = some (fromIndex, hi)
    ∧ fromIndex = 0
    ∧ 0 < hi
    ∧ hi ≤ numObjectStoreSlots
    ∧ (objectStoreFields[hi - 1]?).isSome
    ∧ serializedSlots k = visitTrace fromIndex hi
    ∧ (∀ i : Nat, i ∈ serializedSlots k ↔ fromIndex ≤ i ∧ i < hi) := by
  have hfrom : fromIndex = 0 := by decide
  rcases hk with rfl | rfl | rfl | rfl
  · refine ⟨137, by decide, hfrom, by decide, by decide, by decide, rfl, ?_⟩
    intro i
    have hs : serializedSlots SnapshotKind.kFull = List.range' 0 137 := by decide
    rw [hs, hfrom]
    simpa using List.mem_range'_1
  · refine ⟨137, by decide, hfrom, by decide, by decide, by decide, rfl, ?_⟩
    intro i
    have hs : serializedSlots SnapshotKind.kFullCore = List.range' 0 137 := by decide
    rw [hs, hfrom]
    simpa using List.mem_range'_1
  · refine ⟨200, by decide, hfrom, by decide, by decide, by decide, rfl, ?_⟩
    intro i
    have hs : serializedSlots SnapshotKind.kFullJIT = List.range' 0 200 := by decide
    rw [hs, hfrom]
    simpa using List.mem_range'_1
  · refine ⟨200, by decide, hfrom, by decide, by decide, by decide, rfl, ?_⟩
    intro i
    have hs : serializedSlots SnapshotKind.kFullAOT = List.range' 0 200 := by decide
    rw [hs, hfrom]
    simpa using List.mem_range'_1

/-- C2 witness at the concrete kind `kFull`. -/
theorem C2_snapshot_range_covers_exactly_witness :
    ∃ hi : Nat,
      snapshotRange SnapshotKind.kFull = some (fromIndex, hi)
    ∧ fromIndex = 0
    ∧ 0 < hi
    ∧ hi ≤ numObjectStoreSlots
    ∧ (objectStoreFields[hi - 1]?).isSome
    ∧ serializedSlots SnapshotKind.kFull = visitTrace fromIndex hi
    ∧ (∀ i : Nat, i ∈ serializedSlots SnapshotKind.kFull ↔ fromIndex ≤ i ∧ i < hi) :=
  C2_snapshot_range_covers_exactly SnapshotKind.kFull (Or.inl rfl)

/-- C3: the snapshot sub-ranges of the kinds that do not persist
compiled code (`kFull`, `kFullCore`) contain no `Code`-typed stub slots,
while the sub-ranges of the kinds that do (`kFullJIT`, `kFullAOT`)
include every `Code`-typed stub slot; the group store declares 61 such
slots, so the inclusion is not vacuous. -/
theorem C3_generated_code_slot_partition :
    ((List.range numObjectStoreSlots).filter isCodeSlot).length = 61
  ∧ (((List.range numObjectStoreSlots).filter isCodeSlot).all
      (fun i => decide (i ∈ serializedSlots SnapshotKind.kFullJIT)
             && decide (i ∈ serializedSlots SnapshotKind.kFullAOT))) = true
  ∧ ((serializedSlots SnapshotKind.kFull).all
      (fun i => !(isCodeSlot i))) = true
  ∧ ((serializedSlots SnapshotKind.kFullCore).all
      (fun i => !(isCodeSlot i))) = true := by
  refine ⟨by decide, by decide, by decide, by decide⟩

/-- C4: for every lazy slot, the lazy getter returns the cached value
directly and with no side effect when the cached value is non-null; when
the cached value is null it synchronously runs the owning group
initializer and returns the now-cached (non-null) value. -/
theorem C4_lazy_get_contract (i : Nat) (g : LazyGroup) (s : StoreState)
    (hg : slotGroup i = some g) :
    (∀ v : Nat, s i = some v → lazyGet i s = (some v, s))
  ∧ (s i = none →
      lazyGet i s = ((runLazyInit g s) i, runLazyInit g s)
      ∧ (runLazyInit g s) i = some (lazyInitValue g i)) := by
  constructor
  · intro v hv
    simp [lazyGet, hg, hv]
  · intro hnull
    refine ⟨by simp [lazyGet, hg, hnull], ?_⟩
    simp [runLazyInit, hg]

/-- C4 witness: slot 0 (`list_class`, owned by the Core group) read from
the all-null store runs the Core initializer and returns the now-cached
value. -/
theorem C4_lazy_get_contract_witness :
    slotGroup 0 = some LazyGroup.core
  ∧ ((∀ v : Nat, (fun _ => (none : Option Nat)) 0 = some v →
        lazyGet 0 (fun _ => none) = (some v, fun _ => none))
  ∧ ((fun _ => (none : Option Nat)) 0 = none →
        lazyGet 0 (fun _ => none)
          = ((runLazyInit LazyGroup.core (fun _ => none)) 0,
             runLazyInit LazyGroup.core (fun _ => none))
      ∧ (runLazyInit LazyGroup.core (fun _ => none)) 0
          = some (lazyInitValue LazyGroup.core 0))) :=
  ⟨by decide, C4_lazy_get_contract 0 LazyGroup.core (fun _ => none) (by decide)⟩

/-- C5 counterexample: the claim names the global constant pool, the
dispatch-table entries and the megamorphic cache table as atomic slots;
in the declared field list all three are plain `RW` slots (plain
non-atomic storage), not `ARW` atomic slots. -/
theorem C5_counterexample_named_slots_not_atomic :
    (objectStoreFields.find? (fun s => s.name == "global_object_pool")).map Slot.kind
      = some SlotKind.rw
  ∧ (objectStoreFields.find? (fun s => s.name == "dispatch_table_code_entries")).map Slot.kind
      = some SlotKind.rw
  ∧ (objectStoreFields.find? (fun s => s.name == "megamorphic_cache_table")).map Slot.kind
      = some SlotKind.rw
  ∧ SlotKind.rw ≠ SlotKind.arw
  ∧ storageOfKind SlotKind.rw = StorageKind.plain := by
  decide

/-- C5 (amended): atomic slot accessors default to relaxed memory
ordering on read and write; the only atomic (`ARW`) slots are
`future_timeout_future_index` and `future_wait_future_index`; the global
constant pool, dispatch-table entries and megamorphic cache table
reference are plain read-write slots backed by non-atomic storage; the
slots backed by acquire-release atomic storage are the lazy slots. -/
theorem C5_amended_atomic_slot_inventory :
    atomicAccessDefaultOrder = MemOrder.relaxed
  ∧ (objectStoreFields.filter (fun s => s.kind == SlotKind.arw)).map Slot.name
      = ["future_timeout_future_index", "future_wait_future_index"]
  ∧ storageOfKind SlotKind.arw = StorageKind.stdAtomic
  ∧ (objectStoreFields.find? (fun s => s.name == "global_object_pool")).map
      (fun s => storageOfKind s.kind) = some StorageKind.plain
  ∧ (objectStoreFields.find? (fun s => s.name == "dispatch_table_code_entries")).map
      (fun s => storageOfKind s.kind) = some StorageKind.plain
  ∧ (objectStoreFields.find? (fun s => s.name == "megamorphic_cache_table")).map
      (fun s => storageOfKind s.kind) = some StorageKind.plain
  ∧ storageOfKind SlotKind.cr = StorageKind.acqRelAtomic
  ∧ storageOfKind SlotKind.fr = StorageKind.acqRelAtomic
  ∧ storageOfKind SlotKind.ir = StorageKind.acqRelAtomic := by
  decide

/-- C6: the Bootstrap Library Registry is a dense fixed-size enumeration
with exactly one entry per system library, declared in dependency order
(core before async before isolate); the symbolic accessors address
entries by this enumeration. -/
theorem C6_bootstrap_registry_enumeration :
    bootstrapLibraryList.length = 12
  ∧ bootstrapLibraryList.map Prod.snd
      = ["core", "async", "collection", "convert", "developer", "ffi",
         "_internal", "isolate", "math", "mirrors", "typed_data", "_vmservice"]
  ∧ (bootstrapLibraryList.map Prod.snd).Nodup
  ∧ BootstrapLibraryId.toNat BootstrapLibraryId.kCore
      < BootstrapLibraryId.toNat BootstrapLibraryId.kAsync
  ∧ BootstrapLibraryId.toNat BootstrapLibraryId.kAsync
      < BootstrapLibraryId.toNat BootstrapLibraryId.kIsolate
  ∧ (∀ b : BootstrapLibraryId, BootstrapLibraryId.ofNat? b.toNat = some b)
  ∧ (∀ b : BootstrapLibraryId, b.toNat < 12)
  ∧ (∀ st : StoreState, ∀ b : BootstrapLibraryId,
      bootstrap_library_raw st b.toNat = AccessResult.value (bootstrap_library st b))
  ∧ (∀ st : StoreState, ∀ b : BootstrapLibraryId, ∀ v : Nat,
      set_bootstrap_library_raw st b.toNat v
        = AccessResult.value (set_bootstrap_library st b v)) := by
  refine ⟨rfl, rfl, by decide, by decide, by decide, by decide, by decide, ?_, ?_⟩
  · intro st b; cases b <;> rfl
  · intro st b v; cases b <;> rfl

/-- C7: every identifier value outside the dense enumeration (raw value
at least 12) makes both symbolic accessors reach the
`default: UNREACHABLE()` arm — a non-recoverable bootstrap-fatal fault —
rather than return a usable reference or silently ignore the call. -/
theorem C7_out_of_range_identifier_faults (st : StoreState) (id v : Nat)
    (h : 12 ≤ id) :
    bootstrap_library_raw st id = AccessResult.fault
  ∧ set_bootstrap_library_raw st id v = AccessResult.fault := by
  have hnone : BootstrapLibraryId.ofNat? id = none := by
    unfold BootstrapLibraryId.ofNat?
    exact List.getElem?_eq_none (by simpa [bootstrapIds] using h)
  constructor <;>
    simp [bootstrap_library_raw, set_bootstrap_library_raw, hnone]

/-- C7 witness at the concrete out-of-range identifier 12. -/
theorem C7_out_of_range_identifier_faults_witness :
    bootstrap_library_raw (fun _ => none) 12 = AccessResult.fault
  ∧ set_bootstrap_library_raw (fun _ => none) 12 0 = AccessResult.fault :=
  C7_out_of_range_identifier_faults (fun _ => none) 12 0 (by decide)

/-- C8: within the generated table size (15), `defaultEnabled` returns
the table's boolean entry and `name` returns the table's display-name
string; beyond the table size both fail with the out-of-range fault
instead of returning a value. -/
theorem C8_feature_table_bounds (id : Nat) :
    ((GetExperimentalFeatureDefault id).isSome ↔ id < kFeatureValues.length)
  ∧ ((GetExperimentalFeatureName id).isSome ↔ id < kFeatureNames.length)
  ∧ kFeatureValues.length = 15
  ∧ kFeatureNames.length = 15
  ∧ GetExperimentalFeatureDefault id = kFeatureValues[id]?
  ∧ GetExperimentalFeatureName id = kFeatureNames[id]? := by
  refine ⟨?_, ?_, rfl, rfl, rfl, rfl⟩ <;>
    simp [GetExperimentalFeatureDefault, GetExperimentalFeatureName,
      Option.isSome_iff_ne_none, List.getElem?_eq_none_iff]

/-- C9: for every bootstrap library identifier, `bootstrap_library`
returns exactly the value of the corresponding named library getter and
`set_bootstrap_library` performs exactly the corresponding named library
setter's update: the registry has no storage of its own separate from
the named library slots. -/
theorem C9_registry_delegates_to_named_slots (st : StoreState) (v : Nat) :
    bootstrap_library st BootstrapLibraryId.kCore = core_library st
  ∧ bootstrap_library st BootstrapLibraryId.kAsync = async_library st
  ∧ bootstrap_library st BootstrapLibraryId.kCollection = collection_library st
  ∧ bootstrap_library st BootstrapLibraryId.kConvert = convert_library st
  ∧ bootstrap_library st BootstrapLibraryId.kDeveloper = developer_library st
  ∧ bootstrap_library st BootstrapLibraryId.kFfi = ffi_library st
  ∧ bootstrap_library st BootstrapLibraryId.kInternal = internal_library st
  ∧ bootstrap_library st BootstrapLibraryId.kIsolate = isolate_library st
  ∧ bootstrap_library st BootstrapLibraryId.kMath = math_library st
  ∧ bootstrap_library st BootstrapLibraryId.kMirrors = mirrors_library st
  ∧ bootstrap_library st BootstrapLibraryId.kTypedData = typed_data_library st
  ∧ bootstrap_library st BootstrapLibraryId.kVMService = vmservice_library st
  ∧ set_bootstrap_library st BootstrapLibraryId.kCore v = set_core_library st v
  ∧ set_bootstrap_library st BootstrapLibraryId.kAsync v = set_async_library st v
  ∧ set_bootstrap_library st BootstrapLibraryId.kCollection v = set_collection_library st v
  ∧ set_bootstrap_library st BootstrapLibraryId.kConvert v = set_convert_library st v
  ∧ set_bootstrap_library st BootstrapLibraryId.kDeveloper v = set_developer_library st v
  ∧ set_bootstrap_library st BootstrapLibraryId.kFfi v = set_ffi_library st v
  ∧ set_bootstrap_library st BootstrapLibraryId.kInternal v = set_internal_library st v
  ∧ set_bootstrap_library st BootstrapLibraryId.kIsolate v = set_isolate_library st v
  ∧ set_bootstrap_library st BootstrapLibraryId.kMath v = set_math_library st v
  ∧ set_bootstrap_library st BootstrapLibraryId.kMirrors v = set_mirrors_library st v
  ∧ set_bootstrap_library st BootstrapLibraryId.kTypedData v = set_typed_data_library st v
  ∧ set_bootstrap_library st BootstrapLibraryId.kVMService v = set_vmservice_library st v := by
  exact ⟨rfl, rfl, rfl, rfl, rfl, rfl, rfl, rfl, rfl, rfl, rfl, rfl,
         rfl, rfl, rfl, rfl, rfl, rfl, rfl, rfl, rfl, rfl, rfl, rfl⟩

/-- C10: every entry of the 15-entry generated feature table defaults to
enabled — `GetExperimentalFeatureDefault` returns `some true` on every
valid identifier. -/
theorem C10_feature_defaults_all_true :
    kFeatureValues.length = 15
  ∧ ((List.range 15).all
      (fun id => GetExperimentalFeatureDefault id == some true)) = true := by
  decide

end DartVM
